import Mathlib

/-!
Verification of the timed-thread-join subsystem implemented in
`src/mono/mono/metadata/threads-pthread.c`.

The C file is embedded shallowly:

* `ThreadInfo` mirrors the C struct of the same name (fields `id`,
  `object`, `start_routine`, `arg`, `status`, `exiting`); pointers are
  modelled as natural numbers with `0` playing the role of `NULL`.
* The process-wide `GHashTable *threads` is an association list keyed by
  the pthread id (the table is created with `g_int_hash`/`g_int_equal`,
  so keys compare by integer value); `threads == NULL` is `Option`.
* Each function of the C file becomes a Lean function of the same name.
  Effects that depend on the scheduler — whether a condition wait ends
  because the worker exited, timed out, or the wait primitive failed —
  are passed in explicitly as a `WaitResult` environment value, and the
  synchronisation actions a function performs (mutex lock/unlock,
  condition signal/wait, handle alloc/free) are returned as an event
  trace so that ordering claims can be stated.
* C `div` truncates toward zero, so it is `Int.tdiv`/`Int.tmod`.
-/

/-- Opaque machine pointers (`MonoObject *`, `void *`, function pointers);
`0` is the `NULL` pointer. -/
abbrev Ptr := Nat

/-- A `struct timespec` as filled in by the C code: seconds and a
nanosecond field. -/
structure Timespec where
  tv_sec : Int
  tv_nsec : Int
deriving DecidableEq, Repr

/-- Total duration (or absolute time) denoted by a timespec, in
nanoseconds: `tv_sec` counts seconds, `tv_nsec` counts nanoseconds. -/
def Timespec.toNanos (t : Timespec) : Int :=
  t.tv_sec * 1000000000 + t.tv_nsec

/-- The C struct `ThreadInfo`: per-worker handle holding the pthread id,
the owning managed object, the user routine and its argument, the exit
status and the `exiting` flag.  The `join_mutex`/`exit_cond` pair is not
data; its use is recorded in event traces. -/
structure ThreadInfo where
  id : Nat
  object : Ptr
  start_routine : Ptr
  arg : Ptr
  status : Ptr
  exiting : Bool
deriving DecidableEq, Repr

/-- Synchronisation and resource actions performed by the C functions,
in program order. -/
inductive Event where
  | allocHandle
  | freeHandle
  | detachThread (id : Nat)
  | lockMutex (id : Nat)
  | unlockMutex (id : Nat)
  | signalCond (id : Nat)
  | setStatus (id : Nat) (s : Ptr)
  | setExiting (id : Nat)
  | joinCall (id : Nat) (deadline : Option Timespec)
  | condWait (id : Nat) (deadline : Option Timespec)
  | invokeRoutine (fp : Ptr) (arg : Ptr)
  | destroyTable
deriving DecidableEq, Repr

/-- Environment for a condition-wait loop in `timed_thread_join`: either
the worker runs `timed_thread_exit` with the given status while we wait
(the wait returns 0 and `exiting` is then true), or the wait primitive
returns a nonzero error number (`ETIMEDOUT` for a timed wait that ran
out, anything else for an unexpected failure).  The loop
`while (result == 0 && !thread->exiting)` can only be left in one of
these two ways, so `fails 0` is unreachable in the C code. -/
inductive WaitResult where
  | exits (status : Ptr)
  | fails (errno : Nat)
deriving DecidableEq, Repr

/-- The errno value `ETIMEDOUT` returned by `pthread_cond_timedwait`
when the absolute deadline passes (value as on Linux). -/
def ETIMEDOUT : Nat := 110

/-- Model of `timed_thread_exit`: locks `join_mutex`, records the status, sets
`exiting = TRUE`, signals `exit_cond`, unlocks, then calls
`pthread_exit`.  Returns the updated handle and the trace. -/
def timed_thread_exit (thread : ThreadInfo) (status : Ptr) :
    ThreadInfo × List Event :=
  ({ thread with status := status, exiting := true },
   [Event.lockMutex thread.id, Event.setStatus thread.id status,
    Event.setExiting thread.id, Event.signalCond thread.id,
    Event.unlockMutex thread.id])

/-- Model of `timed_thread_start_routine`: the trampoline run by the new pthread.
It stores the handle in thread-specific data, invokes
`thread->start_routine(thread->arg)` and feeds the returned value
(modelled as `routineResult`) to `timed_thread_exit`. -/
def timed_thread_start_routine (thread : ThreadInfo) (routineResult : Ptr) :
    ThreadInfo × List Event :=
  ((timed_thread_exit thread routineResult).1,
   Event.invokeRoutine thread.start_routine thread.arg ::
     (timed_thread_exit thread routineResult).2)

/-- Model of `timed_thread_create`: `g_new0` a handle (all fields zeroed), init the
mutex/cond pair, fill in `start_routine`, `arg`, `status = NULL`,
`exiting = FALSE`, then `pthread_create`.  `pthreadResult` is the value
`pthread_create` returns and `newId` the pthread id it assigns.  On
failure the handle is `g_free`d and the error returned; on success the
thread is detached and the handle returned. -/
def timed_thread_create (start_routine arg : Ptr) (pthreadResult : Nat)
    (newId : Nat) : Except Nat ThreadInfo × List Event :=
  if pthreadResult = 0 then
    (Except.ok { id := newId, object := 0, start_routine := start_routine,
                 arg := arg, status := 0, exiting := false },
     [Event.allocHandle, Event.detachThread newId])
  else
    (Except.error pthreadResult, [Event.allocHandle, Event.freeHandle])

/-- Result of `timed_thread_join`: the int it returns, the handle state
after the call, the status it reports through the out-parameter when one
is requested, and the trace. -/
structure JoinResult where
  ret : Nat
  thread : ThreadInfo
  reported : Option Ptr
  trace : List Event
deriving DecidableEq, Repr

/-- Model of `timed_thread_join`: locks `join_mutex`; while `result == 0` and the
thread is not exiting, waits on `exit_cond` (`pthread_cond_wait` when
`timeout == NULL`, `pthread_cond_timedwait` against the absolute
`timeout` otherwise); unlocks; if `result == 0` and the thread is
exiting, reports `thread->status`.  When `exiting` already holds the
loop body never runs and no wait happens. -/
def timed_thread_join (thread : ThreadInfo) (timeout : Option Timespec)
    (env : WaitResult) : JoinResult :=
  if thread.exiting then
    { ret := 0, thread := thread, reported := some thread.status,
      trace := [Event.joinCall thread.id timeout, Event.lockMutex thread.id,
                Event.unlockMutex thread.id] }
  else
    match env with
    | WaitResult.exits s =>
      { ret := 0, thread := { thread with status := s, exiting := true },
        reported := some s,
        trace := [Event.joinCall thread.id timeout, Event.lockMutex thread.id,
                  Event.condWait thread.id timeout,
                  Event.unlockMutex thread.id] }
    | WaitResult.fails e =>
      { ret := e, thread := thread, reported := none,
        trace := [Event.joinCall thread.id timeout, Event.lockMutex thread.id,
                  Event.condWait thread.id timeout,
                  Event.unlockMutex thread.id] }

/-- The `GHashTable *threads` registry: pthread id to handle.  Keys are
hashed with `g_int_hash` and compared with `g_int_equal`, i.e. by value. -/
abbrev Registry := List (Nat × ThreadInfo)

/-- Model of `g_hash_table_lookup` on the threads table. -/
def regLookup : Registry → Nat → Option ThreadInfo
  | [], _ => none
  | p :: rest, tid => if p.1 = tid then some p.2 else regLookup rest tid

/-- Model of `g_hash_table_remove` on the threads table. -/
def regRemove (reg : Registry) (tid : Nat) : Registry :=
  reg.filter (fun p => p.1 ≠ tid)

/-- Model of `g_hash_table_insert` on the threads table: replaces any entry with
the same key. -/
def regInsert (reg : Registry) (tid : Nat) (t : ThreadInfo) : Registry :=
  (tid, t) :: regRemove reg tid

/-- Model of `delete_thread`: removes the handle from the table (keyed by
`thread->id`) and `g_free`s it. -/
def delete_thread (reg : Registry) (thread : ThreadInfo) :
    Registry × List Event :=
  (regRemove reg thread.id, [Event.freeHandle])

/-- Result of `ves_icall_System_Threading_Thread_Start_internal`: the
pthread id it returns (0 on failure), the registry afterwards, and the
trace. -/
structure IcallStart where
  tid : Nat
  reg : Option Registry
  trace : List Event
deriving DecidableEq, Repr

/-- Model of `ves_icall_System_Threading_Thread_Start_internal`: resolves the
delegate function pointer (`start_func`, passed here already extracted
from the `method_ptr` field); when it is `NULL`, warns and returns 0.
Otherwise `timed_thread_create(&thread, NULL, start_func, NULL)`; on
create failure warns and returns 0 (the handle was freed inside
`timed_thread_create`).  On success the table is created lazily if
`NULL`, `thread->object = this` is stored, the handle inserted under
`thread->id`, and `thread->id` returned. -/
def ves_icall_System_Threading_Thread_Start_internal
    (thisObj : Ptr) (start_func : Ptr) (pthreadResult : Nat) (newId : Nat)
    (reg : Option Registry) : IcallStart :=
  if start_func = 0 then
    { tid := 0, reg := reg, trace := [] }
  else
    match timed_thread_create start_func 0 pthreadResult newId with
    | (Except.error _, evs) => { tid := 0, reg := reg, trace := evs }
    | (Except.ok thread, evs) =>
      let table := reg.getD []
      let thread1 := { thread with object := thisObj }
      { tid := thread1.id,
        reg := some (regInsert table thread1.id thread1),
        trace := evs }

/-- Result of `ves_icall_System_Threading_Thread_Join_internal`: the
gboolean it returns, the registry afterwards, and the trace. -/
structure IcallJoin where
  ok : Bool
  reg : Option Registry
  trace : List Event
deriving DecidableEq, Repr

/-- The absolute timeout built in the `ms != 0` branch of
`Join_internal`: `divvy = div(ms, 1000); now = time(NULL);
timeout.tv_sec = now + divvy.quot; timeout.tv_nsec = divvy.rem * 1000`. -/
def joinDeadline (now : Int) (ms : Int) : Timespec :=
  { tv_sec := now + Int.tdiv ms 1000, tv_nsec := Int.tmod ms 1000 * 1000 }

/-- Model of `ves_icall_System_Threading_Thread_Join_internal`: refuses to join
the caller's own id (`pthread_self`, passed as `myid`); looks `tid` up
in the table (`NULL` table means not found); `ms == 0` joins with a
`NULL` timeout (block until exit) and on success deletes the entry and
returns TRUE; any other `ms` joins against the absolute deadline
`joinDeadline now ms`, deleting the entry and returning TRUE on success
and returning FALSE on any nonzero join result (`ETIMEDOUT` or not)
with the entry left in place. -/
def ves_icall_System_Threading_Thread_Join_internal
    (myid : Nat) (ms : Int) (tid : Nat) (reg : Option Registry)
    (env : WaitResult) (now : Int) : IcallJoin :=
  if myid = tid then
    { ok := false, reg := reg, trace := [] }
  else
    match reg with
    | none => { ok := false, reg := none, trace := [] }
    | some table =>
      match regLookup table tid with
      | none => { ok := false, reg := some table, trace := [] }
      | some thread =>
        if ms = 0 then
          let r := timed_thread_join thread none env
          if r.ret = 0 then
            { ok := true, reg := some (delete_thread table thread).1,
              trace := r.trace ++ (delete_thread table thread).2 }
          else
            { ok := false, reg := some table, trace := r.trace }
        else
          let r := timed_thread_join thread (some (joinDeadline now ms)) env
          if r.ret = 0 then
            { ok := true, reg := some (delete_thread table thread).1,
              trace := r.trace ++ (delete_thread table thread).2 }
          else
            { ok := false, reg := some table, trace := r.trace }

/-- Outcome of the `nanosleep` call in `Sleep_internal`: either it
completes (returns 0) or it is interrupted with `rem` holding the
remaining time. -/
inductive SleepOutcome where
  | completed
  | interrupted (rem : Timespec)
deriving DecidableEq, Repr

/-- The timespec `Sleep_internal` requests from `nanosleep`:
`divvy = div(ms, 1000); req.tv_sec = divvy.quot;
req.tv_nsec = divvy.rem * 1000`. -/
def sleepRequest (ms : Int) : Timespec :=
  { tv_sec := Int.tdiv ms 1000, tv_nsec := Int.tmod ms 1000 * 1000 }

/-- Model of `ves_icall_System_Threading_Thread_Sleep_internal`: calls
`nanosleep(&req, &rem)` with `req = sleepRequest ms`; on interruption
returns `rem.tv_sec * 1000 + rem.tv_nsec / 1000`, otherwise 0.  The
first component is the timespec handed to the OS, the second the gint32
the icall returns. -/
def ves_icall_System_Threading_Thread_Sleep_internal (ms : Int)
    (outcome : SleepOutcome) : Timespec × Int :=
  (sleepRequest ms,
   match outcome with
   | SleepOutcome.completed => 0
   | SleepOutcome.interrupted rem =>
       rem.tv_sec * 1000 + Int.tdiv rem.tv_nsec 1000)

/-- Result of `mono_thread_cleanup`: the registry afterwards, the state
of every previously registered handle after its unbounded join, and the
trace. -/
structure CleanupResult where
  reg : Option Registry
  finalThreads : List ThreadInfo
  trace : List Event
deriving DecidableEq, Repr

/-- Model of `join_all_threads`, the `g_hash_table_foreach` callback of
`mono_thread_cleanup`: an unbounded `timed_thread_join(info, NULL,
NULL)` on one entry.  An unbounded `pthread_cond_wait` only returns when
the worker has signalled its exit, so the environment supplies each
worker's eventual exit status (`exitStatus` keyed by pthread id). -/
def join_all_threads (p : Nat × ThreadInfo) (exitStatus : Nat → Ptr) :
    JoinResult :=
  timed_thread_join p.2 none (WaitResult.exits (exitStatus p.1))

/-- Model of `mono_thread_cleanup`: when the table is `NULL` there is nothing to
do; otherwise every remaining entry is joined unconditionally
(`join_all_threads`), then every handle is `g_free`d
(`free_all_threadinfo` under `g_hash_table_foreach_remove`), then the
table is destroyed and the global reset to `NULL`. -/
def mono_thread_cleanup (reg : Option Registry) (exitStatus : Nat → Ptr) :
    CleanupResult :=
  match reg with
  | none => { reg := none, finalThreads := [], trace := [] }
  | some table =>
    let joined := table.map (fun p => join_all_threads p exitStatus)
    { reg := none,
      finalThreads := joined.map JoinResult.thread,
      trace := (joined.map JoinResult.trace).flatten
               ++ table.map (fun _ => Event.freeHandle)
               ++ [Event.destroyTable] }

/-- Sample handle of a worker that has already exited (used by
witnesses). -/
def tExited : ThreadInfo :=
  { id := 3, object := 4, start_routine := 5, arg := 0, status := 6,
    exiting := true }

/-- Sample handle of a worker that has not yet exited (used by
witnesses). -/
def tRunning : ThreadInfo :=
  { id := 7, object := 8, start_routine := 9, arg := 0, status := 0,
    exiting := false }

/-- Sample registry holding the two sample handles under their ids. -/
def sampleTable : Registry := [(3, tExited), (7, tRunning)]

/-- C2: joining the calling worker's own identity always fails without
blocking: for every timeout value, registry state and wait environment,
`Join_internal` with `tid` equal to the caller's own `pthread_self`
returns FALSE, leaves the registry untouched, and performs no
synchronisation action at all (empty trace, so it cannot block). -/
theorem join_self_always_fails (myid : Nat) (ms : Int) (reg : Option Registry)
    (env : WaitResult) (now : Int) :
    ves_icall_System_Threading_Thread_Join_internal myid ms myid reg env now
      = { ok := false, reg := reg, trace := [] } := by
  simp [ves_icall_System_Threading_Thread_Join_internal]

/-- C4 (code bug): `Sleep_internal(500)` is documented and specified to
request a 500 millisecond wait, but the timespec it hands to
`nanosleep` is `{tv_sec = 0, tv_nsec = 500 * 1000}`, i.e. 500000
nanoseconds = 0.5 ms, not the 500 * 1000000 ns the claim requires
(`divvy.rem * 1000` converts ms to microseconds, not nanoseconds).
Likewise, an interruption with 200 ms remaining makes it return
`0 * 1000 + 200000000 / 1000 = 200000`, not the ≈200 the claim
requires.  Only the uninterrupted return value 0 matches the claim. -/
theorem sleep_unit_conversion_bug :
    (ves_icall_System_Threading_Thread_Sleep_internal 500
        SleepOutcome.completed).1 = { tv_sec := 0, tv_nsec := 500000 }
    ∧ (ves_icall_System_Threading_Thread_Sleep_internal 500
        SleepOutcome.completed).1.toNanos ≠ 500 * 1000000
    ∧ (ves_icall_System_Threading_Thread_Sleep_internal 500
        SleepOutcome.completed).2 = 0
    ∧ (ves_icall_System_Threading_Thread_Sleep_internal 500
        (SleepOutcome.interrupted { tv_sec := 0, tv_nsec := 200000000 })).2
      = 200000 := by
  refine ⟨rfl, by decide, rfl, rfl⟩

/-- C5 (code bug): a timed join with `ms = 500` at current time
`now = 1000` seconds builds the absolute deadline
`{tv_sec = 1000, tv_nsec = 500 * 1000}`, which is 500000 ns = 0.5 ms
past `now`, not the 500 ms past `now` the claim requires
(`divvy.rem * 1000` converts ms to microseconds, not nanoseconds). -/
theorem join_deadline_conversion_bug :
    joinDeadline 1000 500 = { tv_sec := 1000, tv_nsec := 500000 }
    ∧ (joinDeadline 1000 500).toNanos - ((1000 : Int) * 1000000000) = 500000
    ∧ (joinDeadline 1000 500).toNanos
      ≠ (1000 : Int) * 1000000000 + 500 * 1000000 := by
  refine ⟨rfl, by decide, by decide⟩

/-- C7: a freshly created handle has `exiting = false`, and
`timed_thread_exit` sets `exiting` to true and records the status while
mutating no other field; its trace is exactly lock, set status, set
exiting, signal, unlock — so the false-to-true transition happens under
the handle's mutex, the condition is signalled after the transition and
before the mutex is released, and the transition appears exactly once.
The trampoline performs exactly the routine invocation followed by this
protocol, so after the user callable starts no other field is
mutated. -/
theorem exiting_transition_protocol (t : ThreadInfo) (s f a : Ptr)
    (newId : Nat) :
    (timed_thread_create f a 0 newId).1 =
      Except.ok { id := newId, object := 0, start_routine := f, arg := a,
                  status := 0, exiting := false }
    ∧ (timed_thread_exit t s).1.exiting = true
    ∧ (timed_thread_exit t s).1.status = s
    ∧ (timed_thread_exit t s).1.id = t.id
    ∧ (timed_thread_exit t s).1.object = t.object
    ∧ (timed_thread_exit t s).1.start_routine = t.start_routine
    ∧ (timed_thread_exit t s).1.arg = t.arg
    ∧ (timed_thread_exit t s).2 =
        [Event.lockMutex t.id, Event.setStatus t.id s, Event.setExiting t.id,
         Event.signalCond t.id, Event.unlockMutex t.id]
    ∧ (timed_thread_start_routine t s).2 =
        Event.invokeRoutine t.start_routine t.arg :: (timed_thread_exit t s).2
    ∧ ((timed_thread_exit t s).2.count (Event.setExiting t.id) = 1
        ∧ (timed_thread_start_routine t s).2.count (Event.setExiting t.id) = 1) := by
  refine ⟨rfl, rfl, rfl, rfl, rfl, rfl, rfl, rfl, rfl, ?_, ?_⟩ <;>
    simp [timed_thread_exit, timed_thread_start_routine, List.count_cons]

/-- C8: join is idempotent on an already-exited, not-yet-removed handle:
whatever the deadline and whatever the wait environment,
`timed_thread_join` returns 0 immediately (its trace is just the
lock/unlock bracket, with no condition wait), reports the recorded
status, and leaves the handle unchanged, so a second call reports the
same status again. -/
theorem join_idempotent_before_removal (t : ThreadInfo)
    (d1 d2 : Option Timespec) (env1 env2 : WaitResult)
    (h : t.exiting = true) :
    timed_thread_join t d1 env1 =
      { ret := 0, thread := t, reported := some t.status,
        trace := [Event.joinCall t.id d1, Event.lockMutex t.id,
                  Event.unlockMutex t.id] }
    ∧ timed_thread_join (timed_thread_join t d1 env1).thread d2 env2 =
      { ret := 0, thread := t, reported := some t.status,
        trace := [Event.joinCall t.id d2, Event.lockMutex t.id,
                  Event.unlockMutex t.id] } := by
  constructor <;> simp [timed_thread_join, h]

/-- Witness for C8 at the sample exited handle: both the first and the
second join report the recorded status 6 and never wait. -/
theorem join_idempotent_before_removal_witness :
    tExited.exiting = true
    ∧ (timed_thread_join tExited none (WaitResult.fails 7)).reported = some 6
    ∧ (timed_thread_join
        (timed_thread_join tExited none (WaitResult.fails 7)).thread
        (some { tv_sec := 1, tv_nsec := 0 }) (WaitResult.exits 9)).reported
      = some 6 := by
  have h := join_idempotent_before_removal tExited none
    (some { tv_sec := 1, tv_nsec := 0 }) (WaitResult.fails 7)
    (WaitResult.exits 9) rfl
  exact ⟨rfl, by rw [h.1]; rfl, by rw [h.2]; rfl⟩

/-- C1: for a registered identity other than the caller's own,
`Join_internal` with `timeoutMs = 0` performs its wait with a NULL
deadline (the trace records a join call carrying no deadline and never a
deadline-bounded condition wait), i.e. it waits indefinitely, and it
returns TRUE once the worker has exited — whether the worker had
already exited or exits while the caller waits. -/
theorem join_ms_zero_waits_indefinitely
    (myid tid : Nat) (table : Registry) (t : ThreadInfo) (s : Ptr)
    (env : WaitResult) (now : Int)
    (hne : myid ≠ tid) (hfind : regLookup table tid = some t)
    (henv : t.exiting = true ∨ env = WaitResult.exits s) :
    (ves_icall_System_Threading_Thread_Join_internal myid 0 tid (some table)
        env now).ok = true
    ∧ Event.joinCall t.id none ∈
        (ves_icall_System_Threading_Thread_Join_internal myid 0 tid
          (some table) env now).trace
    ∧ ∀ d, Event.condWait t.id (some d) ∉
        (ves_icall_System_Threading_Thread_Join_internal myid 0 tid
          (some table) env now).trace := by
  rcases henv with h | h
  · simp [ves_icall_System_Threading_Thread_Join_internal, hne, hfind,
      timed_thread_join, h, delete_thread]
  · subst h
    by_cases hex : t.exiting
    · simp [ves_icall_System_Threading_Thread_Join_internal, hne, hfind,
        timed_thread_join, hex, delete_thread]
    · simp [ves_icall_System_Threading_Thread_Join_internal, hne, hfind,
        timed_thread_join, hex, delete_thread]

/-- Witness for C1: caller 1 joins registered worker 7 with
`timeoutMs = 0`; the worker exits with status 42 during the wait; the
call returns TRUE, the wait was issued with no deadline, and no
deadline-bounded wait occurs. -/
theorem join_ms_zero_waits_indefinitely_witness :
    (ves_icall_System_Threading_Thread_Join_internal 1 0 7 (some sampleTable)
        (WaitResult.exits 42) 0).ok = true
    ∧ Event.joinCall 7 none ∈
        (ves_icall_System_Threading_Thread_Join_internal 1 0 7
          (some sampleTable) (WaitResult.exits 42) 0).trace
    ∧ Event.condWait 7 (some { tv_sec := 1, tv_nsec := 0 }) ∉
        (ves_icall_System_Threading_Thread_Join_internal 1 0 7
          (some sampleTable) (WaitResult.exits 42) 0).trace := by
  have h := join_ms_zero_waits_indefinitely 1 7 sampleTable tRunning 42
    (WaitResult.exits 42) 0 (by decide) rfl (Or.inr rfl)
  exact ⟨h.1, h.2.1, h.2.2 { tv_sec := 1, tv_nsec := 0 }⟩

/-- C3: a timed join (`ms ≠ 0`) on a registered, not-yet-exited worker
returns FALSE on `ETIMEDOUT` — and on every other nonzero
wait-primitive error — and leaves the registry entry exactly as it was;
a retry once the worker exits returns TRUE and only then removes the
entry. -/
theorem timed_join_timeout_leaves_entry
    (myid tid : Nat) (table : Registry) (t : ThreadInfo) (ms now : Int)
    (hne : myid ≠ tid) (hfind : regLookup table tid = some t)
    (hms : ms ≠ 0) (hex : t.exiting = false) :
    ((ves_icall_System_Threading_Thread_Join_internal myid ms tid (some table)
        (WaitResult.fails ETIMEDOUT) now).ok = false
      ∧ (ves_icall_System_Threading_Thread_Join_internal myid ms tid
          (some table) (WaitResult.fails ETIMEDOUT) now).reg = some table)
    ∧ (∀ e : Nat, e ≠ 0 →
        (ves_icall_System_Threading_Thread_Join_internal myid ms tid
          (some table) (WaitResult.fails e) now).ok = false
        ∧ (ves_icall_System_Threading_Thread_Join_internal myid ms tid
            (some table) (WaitResult.fails e) now).reg = some table)
    ∧ (∀ s : Ptr, ∀ now2 : Int,
        (ves_icall_System_Threading_Thread_Join_internal myid ms tid
          (some table) (WaitResult.exits s) now2).ok = true
        ∧ (ves_icall_System_Threading_Thread_Join_internal myid ms tid
            (some table) (WaitResult.exits s) now2).reg
          = some (regRemove table t.id)) := by
  refine ⟨?_, ?_, ?_⟩
  · simp [ves_icall_System_Threading_Thread_Join_internal, hne, hfind, hms,
      timed_thread_join, hex, ETIMEDOUT]
  · intro e he
    simp [ves_icall_System_Threading_Thread_Join_internal, hne, hfind, hms,
      timed_thread_join, hex, he]
  · intro s now2
    simp [ves_icall_System_Threading_Thread_Join_internal, hne, hfind, hms,
      timed_thread_join, hex, delete_thread]

/-- Witness for C3: a 250 ms join on running worker 7 times out with
FALSE and the registry is unchanged; the retry during which the worker
exits returns TRUE. -/
theorem timed_join_timeout_leaves_entry_witness :
    (ves_icall_System_Threading_Thread_Join_internal 1 250 7 (some sampleTable)
        (WaitResult.fails ETIMEDOUT) 100).ok = false
    ∧ (ves_icall_System_Threading_Thread_Join_internal 1 250 7
        (some sampleTable) (WaitResult.fails ETIMEDOUT) 100).reg
      = some sampleTable
    ∧ (ves_icall_System_Threading_Thread_Join_internal 1 250 7
        (some sampleTable) (WaitResult.exits 5) 101).ok = true := by
  have h := timed_join_timeout_leaves_entry 1 7 sampleTable tRunning 250 100
    (by decide) rfl (by decide) rfl
  exact ⟨h.1.1, h.1.2, (h.2.2 5 101).1⟩

/-- C6: assuming pthread ids are nonzero, `Start_internal` returns the
sentinel identity 0 exactly when the resolved callable is NULL or
`pthread_create` fails; in the spawn-failure case the freshly allocated
handle is freed (trace `allocHandle` then `freeHandle`, registry
untouched); otherwise the handle is registered under the new worker's
identity, which is returned. -/
theorem start_sentinel_exactly_two_failures
    (thisObj f : Ptr) (pres newId : Nat) (reg : Option Registry)
    (hid : newId ≠ 0) :
    ((ves_icall_System_Threading_Thread_Start_internal thisObj f pres newId
        reg).tid = 0 ↔ (f = 0 ∨ pres ≠ 0))
    ∧ (f ≠ 0 → pres ≠ 0 →
        ves_icall_System_Threading_Thread_Start_internal thisObj f pres newId
          reg =
        { tid := 0, reg := reg,
          trace := [Event.allocHandle, Event.freeHandle] })
    ∧ (f ≠ 0 → pres = 0 →
        ves_icall_System_Threading_Thread_Start_internal thisObj f pres newId
          reg =
        { tid := newId,
          reg := some (regInsert (reg.getD []) newId
            { id := newId, object := thisObj, start_routine := f, arg := 0,
              status := 0, exiting := false }),
          trace := [Event.allocHandle, Event.detachThread newId] }) := by
  by_cases hf : f = 0
  · subst hf
    simp [ves_icall_System_Threading_Thread_Start_internal]
  · by_cases hp : pres = 0
    · subst hp
      simp [ves_icall_System_Threading_Thread_Start_internal,
        timed_thread_create, hf, hid]
    · simp [ves_icall_System_Threading_Thread_Start_internal,
        timed_thread_create, hf, hp]

/-- Witness for C6: a successful start (callable 9, `pthread_create`
returns 0, new id 7, no table yet) does not return the sentinel and
registers the handle; with `pthread_create` returning `EAGAIN = 11` the
sentinel 0 comes back and the handle was freed. -/
theorem start_sentinel_exactly_two_failures_witness :
    ((ves_icall_System_Threading_Thread_Start_internal 11 9 0 7 none).tid = 0
      ↔ ((9 : Ptr) = 0 ∨ (0 : Nat) ≠ 0))
    ∧ ves_icall_System_Threading_Thread_Start_internal 11 9 0 7 none =
      { tid := 7,
        reg := some (regInsert [] 7
          { id := 7, object := 11, start_routine := 9, arg := 0,
            status := 0, exiting := false }),
        trace := [Event.allocHandle, Event.detachThread 7] }
    ∧ ves_icall_System_Threading_Thread_Start_internal 11 9 11 7 none =
      { tid := 0, reg := none,
        trace := [Event.allocHandle, Event.freeHandle] } := by
  have h0 := start_sentinel_exactly_two_failures 11 9 0 7 none (by decide)
  have h1 := start_sentinel_exactly_two_failures 11 9 11 7 none (by decide)
  exact ⟨h0.1, h0.2.2 (by decide) rfl, h1.2.1 (by decide) (by decide)⟩

/-- C10: a successful start registers a handle whose `arg` field is the
NULL it passed to `timed_thread_create`, and the trampoline's first
action is to invoke `start_routine` on that stored `arg` — so the
resolved callable is always invoked with NULL. -/
theorem start_passes_null_argument
    (thisObj f : Ptr) (newId : Nat) (reg : Option Registry) (rr : Ptr)
    (hf : f ≠ 0) :
    regLookup
      ((ves_icall_System_Threading_Thread_Start_internal thisObj f 0 newId
        reg).reg.getD []) newId
      = some { id := newId, object := thisObj, start_routine := f, arg := 0,
               status := 0, exiting := false }
    ∧ (∀ h : ThreadInfo, (timed_thread_start_routine h rr).2.head? =
        some (Event.invokeRoutine h.start_routine h.arg))
    ∧ (timed_thread_start_routine
        { id := newId, object := thisObj, start_routine := f, arg := 0,
          status := 0, exiting := false } rr).2.head? =
      some (Event.invokeRoutine f 0) := by
  refine ⟨?_, fun h => rfl, rfl⟩
  simp [ves_icall_System_Threading_Thread_Start_internal, timed_thread_create,
    hf, regInsert, regLookup]

/-- Witness for C10: starting callable 9 registers a handle with
`arg = 0`, and its trampoline's first event invokes 9 with argument 0. -/
theorem start_passes_null_argument_witness :
    regLookup
      ((ves_icall_System_Threading_Thread_Start_internal 11 9 0 7
        none).reg.getD []) 7
      = some { id := 7, object := 11, start_routine := 9, arg := 0,
               status := 0, exiting := false }
    ∧ (timed_thread_start_routine
        { id := 7, object := 11, start_routine := 9, arg := 0,
          status := 0, exiting := false } 5).2.head? =
      some (Event.invokeRoutine 9 0) := by
  have h := start_passes_null_argument 11 9 7 none 5 (by decide)
  exact ⟨h.1, h.2.2⟩

/-- Helper: a join whose environment is an exit leaves the handle with
`exiting = true`, whether or not the worker had already exited. -/
theorem join_exits_thread_exiting (t : ThreadInfo) (d : Option Timespec)
    (s : Ptr) :
    (timed_thread_join t d (WaitResult.exits s)).thread.exiting = true := by
  by_cases h : t.exiting <;> simp [timed_thread_join, h]

/-- Helper: every `timed_thread_join` records the deadline it was given
in its trace. -/
theorem join_trace_has_joinCall (t : ThreadInfo) (d : Option Timespec)
    (env : WaitResult) :
    Event.joinCall t.id d ∈ (timed_thread_join t d env).trace := by
  by_cases h : t.exiting
  · simp [timed_thread_join, h]
  · cases env <;> simp [timed_thread_join, h]

/-- Helper: `timed_thread_join` never frees a handle. -/
theorem join_trace_no_free (t : ThreadInfo) (d : Option Timespec)
    (env : WaitResult) :
    Event.freeHandle ∉ (timed_thread_join t d env).trace := by
  by_cases h : t.exiting
  · simp [timed_thread_join, h]
  · cases env <;> simp [timed_thread_join, h]

/-- C9: `mono_thread_cleanup` on a live table joins every entry with an
unbounded (NULL) deadline, frees exactly one handle per entry, and
resets the registry to NULL (so a later spawn lazily recreates it);
after it returns, every previously registered worker has terminated
(`exiting = true` on each of the joined handles). -/
theorem cleanup_drains_registry (table : Registry) (exitStatus : Nat → Ptr) :
    (mono_thread_cleanup (some table) exitStatus).reg = none
    ∧ (∀ t ∈ (mono_thread_cleanup (some table) exitStatus).finalThreads,
        t.exiting = true)
    ∧ (∀ p ∈ table, Event.joinCall p.2.id none ∈
        (mono_thread_cleanup (some table) exitStatus).trace)
    ∧ (mono_thread_cleanup (some table) exitStatus).trace.count
        Event.freeHandle = table.length
    ∧ (mono_thread_cleanup (some table) exitStatus).finalThreads.length
        = table.length := by
  refine ⟨rfl, ?_, ?_, ?_, by simp [mono_thread_cleanup]⟩
  · intro t ht
    simp only [mono_thread_cleanup, List.mem_map] at ht
    obtain ⟨r, ⟨p, hp, rfl⟩, rfl⟩ := ht
    exact join_exits_thread_exiting p.2 none (exitStatus p.1)
  · intro p hp
    simp only [mono_thread_cleanup]
    refine List.mem_append_left _ (List.mem_append_left _ ?_)
    refine List.mem_flatten.mpr
      ⟨(timed_thread_join p.2 none (WaitResult.exits (exitStatus p.1))).trace,
       ?_, join_trace_has_joinCall p.2 none _⟩
    exact List.mem_map.mpr
      ⟨join_all_threads p exitStatus,
       List.mem_map.mpr ⟨p, hp, rfl⟩, rfl⟩
  · simp only [mono_thread_cleanup, List.count_append]
    have hA : (((table.map (fun p => join_all_threads p exitStatus)).map
        JoinResult.trace).flatten).count Event.freeHandle = 0 := by
      refine List.count_eq_zero.mpr ?_
      intro hmem
      rcases List.mem_flatten.mp hmem with ⟨l, hl, hel⟩
      rcases List.mem_map.mp hl with ⟨r, hr, rfl⟩
      rcases List.mem_map.mp hr with ⟨p, hp, rfl⟩
      exact join_trace_no_free p.2 none (WaitResult.exits (exitStatus p.1))
        (by simpa [join_all_threads] using hel)
    have hB : (table.map (fun _ => Event.freeHandle)).count Event.freeHandle
        = table.length := by
      induction table with
      | nil => rfl
      | cons q rest ih => simp [List.count_cons, ih]
    rw [hA, hB]
    simp

/-- Witness for C9 on the sample two-entry table: the registry comes
back NULL, worker 7 was joined with no deadline, and two handles were
freed. -/
theorem cleanup_drains_registry_witness :
    (mono_thread_cleanup (some sampleTable) (fun _ => 5)).reg = none
    ∧ Event.joinCall 7 none ∈
        (mono_thread_cleanup (some sampleTable) (fun _ => 5)).trace
    ∧ (mono_thread_cleanup (some sampleTable) (fun _ => 5)).trace.count
        Event.freeHandle = 2 := by
  have h := cleanup_drains_registry sampleTable (fun _ => 5)
  exact ⟨h.1, h.2.2.1 (7, tRunning) (by decide), by rw [h.2.2.2.1]; rfl⟩
